import Mathlib

/-!
Shallow embedding of the authenticated API client in
`src/static/js/api-client.js` (class `APIClient`).

Modelling conventions:
* A parsed JSON body is reduced to the fields the client actually reads
  (`error`, `access_token`, `refresh_token`) plus an opaque `rest` component
  standing for the remainder of the object, so that body identity is tracked.
* `localStorage` is modelled by the `storedToken` / `storedRefreshToken`
  fields of `ClientState`; `this.token` / `this.refreshToken` are the
  `token` / `refreshToken` fields.
* JavaScript truthiness of a string-or-null value is `jsTruthy`
  (null / undefined / empty string are falsy).
* A network round trip is an oracle value `FetchResult`: either the fetch
  promise rejected (`networkError`) or a response arrived with a status,
  a status text and a body that either parses to JSON (`some body`) or
  does not (`none`, the `response.json()` rejection case).
* `request` consumes a `World`: the outcome of the first fetch of the URL,
  the outcome of a refresh-endpoint call made while handling it, the outcome
  of the retry fetch, and the outcome of a refresh-endpoint call made while
  handling the retry.  Oracles that the control flow never reaches are unused.
* The returned `RequestOutcome` records, besides the envelope given to the
  caller and the final client state, the serialized body attached to the
  outgoing request, the header set of every fetch of the original URL in
  order, the number of calls made to the refresh endpoint, and whether the
  client navigated to the login page.
-/

/-- Parsed JSON body, reduced to the fields the client reads plus an opaque
remainder. -/
structure JsonBody where
  error : Option String
  access_token : Option String
  refresh_token : Option String
  rest : String
  deriving DecidableEq

/-- The empty object produced by the tolerated-parse-failure path. -/
def emptyBody : JsonBody := ⟨none, none, none, ""⟩

/-- JavaScript truthiness of a string-or-null value. -/
def jsTruthy : Option String → Bool
  | none => false
  | some s => s != ""

/-- The client's mutable credential state: in-memory token pair plus the two
localStorage keys. -/
structure ClientState where
  token : Option String
  refreshToken : Option String
  storedToken : Option String
  storedRefreshToken : Option String
  deriving DecidableEq

/-- `APIClient.setToken`: always overwrites the access token (memory and
storage); overwrites the refresh token only when the argument is truthy. -/
def setToken (s : ClientState) (tok reTok : Option String) : ClientState :=
  let s1 := { s with token := tok, storedToken := tok }
  if jsTruthy reTok then { s1 with refreshToken := reTok, storedRefreshToken := reTok } else s1

/-- `APIClient.clearAuth`: wipes both tokens from memory and storage. -/
def clearAuth (_s : ClientState) : ClientState :=
  ⟨none, none, none, none⟩

/-- The header fields the client manipulates. -/
structure Headers where
  contentType : Option String
  accept : Option String
  authorization : Option String
  deriving DecidableEq

/-- `APIClient.getHeaders`: JSON content-type and accept headers, plus a
bearer authorization header when a (truthy) access token is stored. -/
def getHeaders (s : ClientState) : Headers :=
  { contentType := some "application/json"
    accept := some "application/json"
    authorization := if jsTruthy s.token then some ("Bearer " ++ s.token.getD "") else none }

/-- Outcome of one `fetch` round trip. -/
inductive FetchResult where
  | networkError (msg : String)
  | response (status : Nat) (statusText : String) (body : Option JsonBody)
  deriving DecidableEq

/-- `Response.ok` of the fetch API: status in 200..299. -/
def isOk (status : Nat) : Bool := 200 ≤ status && status ≤ 299

/-- `APIClient.refreshAuthToken`: posts to the refresh endpoint; on a 2xx
response with a parseable body stores the returned tokens via `setToken` and
yields `true`; on any other outcome (network error, non-2xx, unparseable
body) yields `false` with the state unchanged.  Exceptions are swallowed by
the surrounding try/catch, so the function is total. -/
def refreshAuthToken (s : ClientState) (r : FetchResult) : Bool × ClientState :=
  match r with
  | .networkError _ => (false, s)
  | .response status _ body =>
    if isOk status then
      match body with
      | some data => (true, setToken s data.access_token data.refresh_token)
      | none => (false, s)
    else (false, s)

/-- The response envelope handed to callers.  The `retry` field models the
internal `retry: true` marker returned by `handleResponse` after a
successful token refresh. -/
structure Envelope where
  success : Bool
  data : Option JsonBody
  error : Option String
  retry : Bool
  deriving DecidableEq

/-- Result of `handleResponse`: either a returned envelope or a thrown
`Error` carrying a message. -/
inductive HRResult where
  | ok (e : Envelope)
  | thrown (msg : String)
  deriving DecidableEq

/-- One `handleResponse` step: its result, the state it leaves behind,
whether it called the refresh endpoint, and whether it navigated to the
login page. -/
structure HRStep where
  result : HRResult
  state : ClientState
  refreshCalled : Bool
  redirected : Bool
  deriving DecidableEq

/-- The `HTTP status: statusText` fallback error message. -/
def httpMsg (status : Nat) (statusText : String) : String :=
  "HTTP " ++ toString status ++ ": " ++ statusText

/-- JavaScript `x || fallback` on a string-or-absent value. -/
def jsOr (v : Option String) (fallback : String) : String :=
  match v with
  | some s => if s = "" then fallback else s
  | none => fallback

/-- The `Authentication required` terminal envelope. -/
def authRequired : Envelope := ⟨false, none, some "Authentication required", false⟩

/-- The internal retry marker envelope. -/
def retryMarker : Envelope := ⟨false, none, none, true⟩

/-- `APIClient.handleResponse`.  The body argument is `some data` when
`response.json()` resolved and `none` when it rejected, in which case the
`.catch(() => ({}))` substitutes the empty object.  On 2xx returns a success
envelope; on 401 with a truthy refresh token attempts one refresh and either
returns the retry marker or clears credentials, redirects and returns
`authRequired`; on 401 without a refresh token clears, redirects and returns
`authRequired`; on any other status throws `data.error` or the HTTP
fallback message. -/
def handleResponse (s : ClientState) (status : Nat) (statusText : String)
    (body : Option JsonBody) (refreshOutcome : FetchResult) : HRStep :=
  let data := body.getD emptyBody
  if isOk status then
    ⟨.ok ⟨true, some data, none, false⟩, s, false, false⟩
  else if status = 401 then
    if jsTruthy s.refreshToken then
      let res := refreshAuthToken s refreshOutcome
      if res.1 then
        ⟨.ok retryMarker, res.2, true, false⟩
      else
        ⟨.ok authRequired, clearAuth res.2, true, true⟩
    else
      ⟨.ok authRequired, clearAuth s, false, true⟩
  else
    ⟨.thrown (jsOr data.error (httpMsg status statusText)), s, false, false⟩

/-- The oracle for one `request` call: outcome of the first fetch, of a
refresh call made while handling it, of the retry fetch, and of a refresh
call made while handling the retry. -/
structure World where
  first : FetchResult
  refresh1 : FetchResult
  retry : FetchResult
  refresh2 : FetchResult
  deriving DecidableEq

/-- Everything observable about one `request` call. -/
structure RequestOutcome where
  envelope : Envelope
  state : ClientState
  sentBody : Option JsonBody
  mainHeaders : List Headers
  refreshCalls : Nat
  redirected : Bool
  deriving DecidableEq

/-- The envelope produced by `request`'s catch block. -/
def errEnvelope (msg : String) : Envelope := ⟨false, none, some msg, false⟩

/-- `error.message || 'Network error occurred'`. -/
def caughtMsg (msg : String) : String := if msg = "" then "Network error occurred" else msg

/-- The methods for which `request` serializes a body. -/
def mutatingMethods : List String := ["POST", "PUT", "PATCH"]

/-- ASCII upper-casing of one character, as `String.toUpperCase` acts on the
method names used here. -/
def jsUpperChar (c : Char) : Char :=
  if 'a' ≤ c ∧ c ≤ 'z' then Char.ofNat (c.toNat - 32) else c

/-- `method.toUpperCase()` on ASCII method names. -/
def jsUpper (s : String) : String := ⟨s.data.map jsUpperChar⟩

/-- Collapse a `handleResponse` result the way `request`'s try/catch does:
a returned envelope passes through, a thrown error becomes the catch
envelope. -/
def settleResult : HRResult → Envelope
  | .ok e => e
  | .thrown msg => errEnvelope (caughtMsg msg)

/-- `APIClient.request`.  Builds the config (upper-cased method, default
headers unless the options object carries a `headers` key, which then
replaces them wholesale; JSON body only for POST/PUT/PATCH with truthy
data), fetches, handles the response, retries exactly once when the retry
marker comes back (rebuilding headers from the current state), and converts
any thrown error or network failure into a `success: false` envelope. -/
def request (s : ClientState) (method : String) (data : Option JsonBody)
    (optHeaders : Option Headers) (w : World) : RequestOutcome :=
  let m := jsUpper method
  let headers0 := match optHeaders with | some h => h | none => getHeaders s
  let body := if data.isSome && mutatingMethods.contains m then data else none
  match w.first with
  | .networkError msg =>
      ⟨errEnvelope (caughtMsg msg), s, body, [headers0], 0, false⟩
  | .response st stx b =>
      let h1 := handleResponse s st stx b w.refresh1
      match h1.result with
      | .thrown msg =>
          ⟨errEnvelope (caughtMsg msg), h1.state, body, [headers0],
            h1.refreshCalled.toNat, h1.redirected⟩
      | .ok e =>
          if e.retry then
            let headers1 := getHeaders h1.state
            match w.retry with
            | .networkError msg =>
                ⟨errEnvelope (caughtMsg msg), h1.state, body, [headers0, headers1],
                  h1.refreshCalled.toNat, h1.redirected⟩
            | .response st2 stx2 b2 =>
                let h2 := handleResponse h1.state st2 stx2 b2 w.refresh2
                ⟨settleResult h2.result, h2.state, body, [headers0, headers1],
                  h1.refreshCalled.toNat + h2.refreshCalled.toNat,
                  h1.redirected || h2.redirected⟩
          else
            ⟨e, h1.state, body, [headers0], h1.refreshCalled.toNat, h1.redirected⟩

/-- Outcome of the XMLHttpRequest used by `upload`: either the `onerror`
handler fired, or `onload` fired with a status, status text and a response
text that either parses as JSON or does not. -/
inductive XhrOutcome where
  | networkError
  | response (status : Nat) (statusText : String) (bodyParse : Option JsonBody)
  deriving DecidableEq

/-- How the promise returned by `upload` finishes. -/
inductive UploadResult where
  | resolved (e : Envelope)
  | rejectedNetwork
  | rejectedParse
  | rejectedError (msg : String)
  deriving DecidableEq

/-- One `upload` call: how its promise finishes, the state left behind and
whether the refresh endpoint was called. -/
structure UploadStep where
  result : UploadResult
  state : ClientState
  refreshCalled : Bool
  deriving DecidableEq

/-- `APIClient.upload`.  `onerror` rejects with `Upload failed`.  In
`onload` the synthetic response's `json()` evaluates
`JSON.parse(xhr.responseText)` synchronously, so an unparseable body throws
before the `.catch(() => ({}))` inside `handleResponse` can attach, and the
surrounding try/catch rejects the promise.  A parseable body goes through
`handleResponse`; a returned envelope resolves the promise, a thrown error
rejects it.  No retry is ever issued. -/
def upload (s : ClientState) (outcome : XhrOutcome) (refreshOutcome : FetchResult) : UploadStep :=
  match outcome with
  | .networkError => ⟨.rejectedNetwork, s, false⟩
  | .response _ _ none => ⟨.rejectedParse, s, false⟩
  | .response st stx (some b) =>
      let h := handleResponse s st stx (some b) refreshOutcome
      match h.result with
      | .ok e => ⟨.resolved e, h.state, h.refreshCalled⟩
      | .thrown msg => ⟨.rejectedError msg, h.state, h.refreshCalled⟩

/-- One entry of the list returned by `batch`. -/
structure BatchEntry where
  success : Bool
  data : Option JsonBody
  error : Option String
  deriving DecidableEq

/-- The per-member transformation inside `batch`: since `request` always
resolves to an envelope, every `Promise.allSettled` slot is fulfilled, so
the entry copies the envelope's success flag and data and reports its error
only on failure. -/
def batchEntry (e : Envelope) : BatchEntry :=
  ⟨e.success, e.data, if e.success then none else e.error⟩

/-- `APIClient.batch` over the list of member-request outcomes, in input
order: `requests.map` starts one `request` per descriptor,
`Promise.allSettled` collects their envelopes in input order, and the final
`map` produces one entry per envelope. -/
def batch (outcomes : List Envelope) : List BatchEntry :=
  outcomes.map batchEntry

/-! Helper lemmas about the embedded operations. -/

/-- Refresh success, read off the oracle outcome: a 2xx response with a
parseable body. -/
def refreshSucceeds : FetchResult → Bool
  | .networkError _ => false
  | .response st _ body => isOk st && body.isSome

theorem isOk_401_eq : isOk 401 = false := by decide

theorem refreshAuthToken_of_fail (s : ClientState) (r : FetchResult)
    (h : refreshSucceeds r = false) : refreshAuthToken s r = (false, s) := by
  cases r with
  | networkError msg => rfl
  | response st stx body =>
    cases hok : isOk st with
    | false => simp [refreshAuthToken, hok]
    | true =>
      cases body with
      | none => simp [refreshAuthToken, hok]
      | some b => simp [refreshSucceeds, hok] at h

theorem refreshAuthToken_of_success (s : ClientState) (st : Nat) (stx : String) (b : JsonBody)
    (hok : isOk st = true) :
    refreshAuthToken s (.response st stx (some b)) =
      (true, setToken s b.access_token b.refresh_token) := by
  simp [refreshAuthToken, hok]

theorem refreshAuthToken_fst (s : ClientState) (r : FetchResult) :
    (refreshAuthToken s r).1 = refreshSucceeds r := by
  cases r with
  | networkError msg => rfl
  | response st stx body =>
    cases hok : isOk st with
    | false => simp [refreshAuthToken, refreshSucceeds, hok]
    | true =>
      cases body with
      | none => simp [refreshAuthToken, refreshSucceeds, hok]
      | some b => simp [refreshAuthToken, refreshSucceeds, hok]

theorem handleResponse_of_ok (s : ClientState) (st : Nat) (stx : String)
    (b : Option JsonBody) (r : FetchResult) (hok : isOk st = true) :
    handleResponse s st stx b r =
      ⟨.ok ⟨true, some (b.getD emptyBody), none, false⟩, s, false, false⟩ := by
  simp [handleResponse, hok]

theorem handleResponse_401_norefresh (s : ClientState) (stx : String)
    (b : Option JsonBody) (r : FetchResult) (h : jsTruthy s.refreshToken = false) :
    handleResponse s 401 stx b r = ⟨.ok authRequired, clearAuth s, false, true⟩ := by
  simp [handleResponse, h, isOk_401_eq]

theorem handleResponse_401_refresh_success (s : ClientState) (stx : String)
    (b : Option JsonBody) (rst : Nat) (rstx : String) (rb : JsonBody)
    (h : jsTruthy s.refreshToken = true) (hok : isOk rst = true) :
    handleResponse s 401 stx b (.response rst rstx (some rb)) =
      ⟨.ok retryMarker, setToken s rb.access_token rb.refresh_token, true, false⟩ := by
  simp [handleResponse, h, isOk_401_eq,
    refreshAuthToken_of_success s rst rstx rb hok, retryMarker]

theorem handleResponse_401_refresh_fail (s : ClientState) (stx : String)
    (b : Option JsonBody) (r : FetchResult)
    (h : jsTruthy s.refreshToken = true) (hf : refreshSucceeds r = false) :
    handleResponse s 401 stx b r = ⟨.ok authRequired, clearAuth s, true, true⟩ := by
  simp [handleResponse, h, isOk_401_eq, refreshAuthToken_of_fail s r hf, clearAuth]

theorem handleResponse_of_other (s : ClientState) (st : Nat) (stx : String)
    (b : Option JsonBody) (r : FetchResult)
    (hok : isOk st = false) (h401 : st ≠ 401) :
    handleResponse s st stx b r =
      ⟨.thrown (jsOr (b.getD emptyBody).error (httpMsg st stx)), s, false, false⟩ := by
  simp [handleResponse, hok, h401]

theorem handleResponse_not401_quiet (s : ClientState) (st : Nat) (stx : String)
    (b : Option JsonBody) (r : FetchResult) (h401 : st ≠ 401) :
    (handleResponse s st stx b r).refreshCalled = false := by
  cases hok : isOk st with
  | true => rw [handleResponse_of_ok s st stx b r hok]
  | false => rw [handleResponse_of_other s st stx b r hok h401]

theorem bool_toNat_le_one (b : Bool) : b.toNat ≤ 1 := by
  cases b <;> simp

theorem httpMsg_ne_empty (st : Nat) (stx : String) : httpMsg st stx ≠ "" := by
  intro h
  have h2 : (httpMsg st stx).length = "".length := congrArg String.length h
  simp only [httpMsg, String.length_append] at h2
  have h5 : "HTTP ".length = 5 := rfl
  have hc : ": ".length = 2 := rfl
  have he : "".length = 0 := rfl
  rw [h5, hc, he] at h2
  omega

theorem caughtMsg_of_ne (msg : String) (h : msg ≠ "") : caughtMsg msg = msg := by
  simp [caughtMsg, h]

/-! Claim theorems. -/

/-- C5: for every request whose first response is 2xx with a parseable JSON
body, the returned envelope has `success = true` and `data` equal to the
parsed body of that response. -/
theorem claim5_success_envelope (s : ClientState) (method : String) (data : Option JsonBody)
    (optHeaders : Option Headers) (w : World) (st : Nat) (stx : String) (b : JsonBody)
    (hfirst : w.first = .response st stx (some b)) (hok : isOk st = true) :
    (request s method data optHeaders w).envelope = ⟨true, some b, none, false⟩ := by
  obtain ⟨f, r1, rt, r2⟩ := w
  simp only at hfirst
  subst hfirst
  simp [request, handleResponse_of_ok s st stx (some b) r1 hok]

/-- Witness for C5 at a concrete 200 response. -/
theorem claim5_witness :
    (request (⟨some "t5", some "r5", some "t5", some "r5"⟩ : ClientState) "GET" none none
      ⟨.response 200 "OK" (some ⟨none, none, none, "payload5"⟩),
       .networkError "n1", .networkError "n2", .networkError "n3"⟩).envelope =
      ⟨true, some ⟨none, none, none, "payload5"⟩, none, false⟩ :=
  claim5_success_envelope _ "GET" none none _ 200 "OK" _ rfl (by decide)

/-- C6: for every request whose first response is non-2xx and not 401, the
envelope has `success = false`; its error is the server-provided error
message when the body carries a non-empty one, and otherwise the message
built from the HTTP status and status text. -/
theorem claim6_http_error (s : ClientState) (method : String) (data : Option JsonBody)
    (optHeaders : Option Headers) (w : World) (st : Nat) (stx : String) (b : JsonBody)
    (hfirst : w.first = .response st stx (some b))
    (hok : isOk st = false) (h401 : st ≠ 401) :
    (request s method data optHeaders w).envelope.success = false ∧
    (∀ e, b.error = some e → e ≠ "" →
      (request s method data optHeaders w).envelope.error = some e) ∧
    (b.error = none →
      (request s method data optHeaders w).envelope.error =
        some ("HTTP " ++ toString st ++ ": " ++ stx)) := by
  obtain ⟨f, r1, rt, r2⟩ := w
  simp only at hfirst
  subst hfirst
  simp only [request, handleResponse_of_other s st stx (some b) r1 hok h401]
  refine ⟨rfl, ?_, ?_⟩
  · intro e he hne
    simp [errEnvelope, jsOr, he, hne, caughtMsg_of_ne e hne]
  · intro he
    simp only [errEnvelope, jsOr, he, Option.getD_some]
    exact congrArg some (caughtMsg_of_ne (httpMsg st stx) (httpMsg_ne_empty st stx))

/-- Witness for C6 at a concrete 500 response carrying a server message and
at a concrete 404 response without one. -/
theorem claim6_witness :
    (request (⟨some "t6", some "r6", some "t6", some "r6"⟩ : ClientState) "GET" none none
      ⟨.response 500 "Internal Server Error" (some ⟨some "boom", none, none, ""⟩),
       .networkError "n1", .networkError "n2", .networkError "n3"⟩).envelope.error =
      some "boom" ∧
    (request (⟨some "t6", some "r6", some "t6", some "r6"⟩ : ClientState) "GET" none none
      ⟨.response 404 "Not Found" (some ⟨none, none, none, ""⟩),
       .networkError "n1", .networkError "n2", .networkError "n3"⟩).envelope.error =
      some "HTTP 404: Not Found" := by
  constructor
  · exact (claim6_http_error _ "GET" none none _ 500 "Internal Server Error" _ rfl
      (by decide) (by decide)).2.1 "boom" rfl (by decide)
  · exact ((claim6_http_error _ "GET" none none _ 404 "Not Found" _ rfl
      (by decide) (by decide)).2.2 rfl).trans (by decide)

/-- C7 holds on the `request` path: a response body that fails to parse is
handled exactly as if the body were the empty object, so the call still
produces its normal envelope; but the claim fails for `upload` (see the
counterexample), so only this amended form is provable. -/
theorem claim7_request_tolerates_bad_json (s : ClientState) (method : String)
    (data : Option JsonBody) (optHeaders : Option Headers) (st : Nat) (stx : String)
    (r1 rt r2 : FetchResult) :
    request s method data optHeaders ⟨.response st stx none, r1, rt, r2⟩ =
      request s method data optHeaders ⟨.response st stx (some emptyBody), r1, rt, r2⟩ := by
  have hb : handleResponse s st stx none r1 = handleResponse s st stx (some emptyBody) r1 := rfl
  simp only [request, hb]

/-- C7 counterexample: a 200 response whose body is not valid JSON makes the
`upload` promise reject (the synthetic `json()` throws before the tolerant
`.catch` can attach), instead of being treated as an empty object. -/
theorem claim7_counterexample :
    (upload (⟨some "t7", some "r7", some "t7", some "r7"⟩ : ClientState)
      (.response 200 "OK" none) (.networkError "n7")).result = .rejectedParse := by
  decide

/-- C8: `batch` returns one entry per member request, in input order, and the
i-th entry is a function of the i-th member outcome alone, so one member's
failure never aborts, alters or suppresses the others. -/
theorem claim8_batch_independent (outcomes : List Envelope) (i : Nat) :
    (batch outcomes).length = outcomes.length ∧
    (batch outcomes)[i]? = outcomes[i]?.map batchEntry := by
  constructor
  · simp [batch]
  · simp [batch]

theorem setToken_token_eq (s : ClientState) (tok re : Option String) :
    (setToken s tok re).token = tok := by
  simp only [setToken]
  split <;> rfl

theorem getHeaders_authorization (s : ClientState) (t : String)
    (h : s.token = some t) (hne : t ≠ "") :
    (getHeaders s).authorization = some ("Bearer " ++ t) := by
  simp [getHeaders, jsTruthy, h, bne_iff_ne, hne]

/-- Shape facts about `request` that hold on every branch: the first fetch
carries the caller override when present and the default headers otherwise,
the serialized body is attached exactly for truthy data with an upper-cased
mutating method, at most two fetches of the URL occur, and at most two
refresh-endpoint calls occur. -/
theorem request_shape (s : ClientState) (method : String) (data : Option JsonBody)
    (optHeaders : Option Headers) (w : World) :
    (request s method data optHeaders w).mainHeaders.head? =
      some (optHeaders.getD (getHeaders s)) ∧
    (request s method data optHeaders w).sentBody =
      (if data.isSome && mutatingMethods.contains (jsUpper method) then data else none) ∧
    (request s method data optHeaders w).mainHeaders.length ≤ 2 ∧
    (request s method data optHeaders w).refreshCalls ≤ 2 := by
  obtain ⟨f, r1, rt, r2⟩ := w
  cases optHeaders with
  | none =>
    cases f with
    | networkError msg => simp [request]
    | response st stx b =>
      simp only [request]
      rcases hres : (handleResponse s st stx b r1).result with e | msg
      · by_cases hr : e.retry = true
        · cases rt with
          | networkError m =>
            have hb1 := bool_toNat_le_one (handleResponse s st stx b r1).refreshCalled
            simp [hres, hr]
            omega
          | response st2 stx2 b2 =>
            have hb1 := bool_toNat_le_one (handleResponse s st stx b r1).refreshCalled
            have hb2 := bool_toNat_le_one
              (handleResponse (handleResponse s st stx b r1).state st2 stx2 b2 r2).refreshCalled
            simp [hres, hr]
            omega
        · have hb1 := bool_toNat_le_one (handleResponse s st stx b r1).refreshCalled
          simp [hres, hr]
          omega
      · have hb1 := bool_toNat_le_one (handleResponse s st stx b r1).refreshCalled
        simp [hres]
        omega
  | some hOver =>
    cases f with
    | networkError msg => simp [request]
    | response st stx b =>
      simp only [request]
      rcases hres : (handleResponse s st stx b r1).result with e | msg
      · by_cases hr : e.retry = true
        · cases rt with
          | networkError m =>
            have hb1 := bool_toNat_le_one (handleResponse s st stx b r1).refreshCalled
            simp [hres, hr]
            omega
          | response st2 stx2 b2 =>
            have hb1 := bool_toNat_le_one (handleResponse s st stx b r1).refreshCalled
            have hb2 := bool_toNat_le_one
              (handleResponse (handleResponse s st stx b r1).state st2 stx2 b2 r2).refreshCalled
            simp [hres, hr]
            omega
        · have hb1 := bool_toNat_le_one (handleResponse s st stx b r1).refreshCalled
          simp [hres, hr]
          omega
      · have hb1 := bool_toNat_le_one (handleResponse s st stx b r1).refreshCalled
        simp [hres]
        omega

/-- C1 counterexample: a call whose first response is 401, whose refresh
succeeds, and whose retried request returns 401 again makes two calls to the
refresh endpoint — the retried response is pushed through `handleResponse`,
which refreshes again — refuting the claimed bound of at most one refresh
attempt per failed call. -/
theorem claim1_counterexample :
    (request (⟨some "tokA", some "refA", some "tokA", some "refA"⟩ : ClientState) "GET" none none
      ⟨.response 401 "Unauthorized" (some emptyBody),
       .response 200 "OK" (some ⟨none, some "tokB", some "refB", ""⟩),
       .response 401 "Unauthorized" (some emptyBody),
       .response 200 "OK" (some ⟨none, some "tokC", some "refC", ""⟩)⟩).refreshCalls = 2 := by
  decide

/-- C1 amended: per call, at most one retry of the original request is
issued (never more than two fetches of the URL) and at most two
refresh-endpoint calls occur — the retried request, when it itself returns
401 with a refresh token stored, triggers one further refresh attempt but
never a further retry, so the flow cannot loop. -/
theorem claim1_retry_refresh_bounds (s : ClientState) (method : String)
    (data : Option JsonBody) (optHeaders : Option Headers) (w : World) :
    (request s method data optHeaders w).mainHeaders.length ≤ 2 ∧
    (request s method data optHeaders w).refreshCalls ≤ 2 :=
  ⟨(request_shape s method data optHeaders w).2.2.1,
   (request_shape s method data optHeaders w).2.2.2⟩

/-- C2 counterexample: under the claim's own premises — first response 401,
refresh token stored, refresh endpoint answering with fresh tokens — the
retried request may again return 401, and then a second call to the refresh
endpoint is made, refuting "exactly one call is made to the refresh
endpoint". -/
theorem claim2_counterexample :
    (request (⟨some "tokD", some "refD", some "tokD", some "refD"⟩ : ClientState) "GET" none none
      ⟨.response 401 "Unauthorized" (some emptyBody),
       .response 200 "OK" (some ⟨none, some "tokE", some "refE", ""⟩),
       .response 401 "Unauthorized" (some emptyBody),
       .response 200 "OK" (some ⟨none, some "tokF", some "refF", ""⟩)⟩).refreshCalls = 2 := by
  decide

/-- C2 amended: when the first response is 401 with a truthy refresh token
stored, the refresh endpoint answers 2xx with a body carrying a non-empty
access token, and the retried fetch yields a response whose status is not
401, then exactly one refresh call is made, exactly one retry of the
original request occurs, the retry carries headers rebuilt from the new
access token, and the envelope handed to the caller is the settled outcome
of handling the retried response from the refreshed state. -/
theorem claim2_refresh_retry (s : ClientState) (method : String) (data : Option JsonBody)
    (optHeaders : Option Headers) (w : World) (stx : String) (b : Option JsonBody)
    (rst : Nat) (rstx : String) (rb : JsonBody) (newTok : String)
    (st2 : Nat) (stx2 : String) (b2 : Option JsonBody)
    (hfirst : w.first = .response 401 stx b)
    (hrt : jsTruthy s.refreshToken = true)
    (hrefresh : w.refresh1 = .response rst rstx (some rb))
    (hrok : isOk rst = true)
    (hacc : rb.access_token = some newTok)
    (hne : newTok ≠ "")
    (hretry : w.retry = .response st2 stx2 b2)
    (h401 : st2 ≠ 401) :
    (request s method data optHeaders w).refreshCalls = 1 ∧
    (request s method data optHeaders w).mainHeaders.length = 2 ∧
    (request s method data optHeaders w).mainHeaders.getLast? =
      some (getHeaders (setToken s rb.access_token rb.refresh_token)) ∧
    (getHeaders (setToken s rb.access_token rb.refresh_token)).authorization =
      some ("Bearer " ++ newTok) ∧
    (request s method data optHeaders w).envelope =
      settleResult (handleResponse (setToken s rb.access_token rb.refresh_token)
        st2 stx2 b2 w.refresh2).result := by
  obtain ⟨f, r1, rt, r2⟩ := w
  simp only at hfirst hrefresh hretry
  subst hfirst hrefresh hretry
  have h1 := handleResponse_401_refresh_success s stx b rst rstx rb hrt hrok
  have h2quiet := handleResponse_not401_quiet
    (setToken s rb.access_token rb.refresh_token) st2 stx2 b2 r2 h401
  simp only [request, h1, retryMarker]
  refine ⟨?_, by simp, by simp, ?_, by simp⟩
  · simp [h2quiet]
  · exact getHeaders_authorization _ newTok (by rw [setToken_token_eq, hacc]) hne

/-- Witness for C2 at a concrete 401-refresh-retry-200 run. -/
theorem claim2_witness :
    (request (⟨some "tokG", some "refG", some "tokG", some "refG"⟩ : ClientState) "GET" none none
      ⟨.response 401 "Unauthorized" (some emptyBody),
       .response 200 "OK" (some ⟨none, some "tokH", some "refH", ""⟩),
       .response 200 "OK" (some ⟨none, none, none, "fresh"⟩),
       .networkError "unused"⟩).refreshCalls = 1 ∧
    (request (⟨some "tokG", some "refG", some "tokG", some "refG"⟩ : ClientState) "GET" none none
      ⟨.response 401 "Unauthorized" (some emptyBody),
       .response 200 "OK" (some ⟨none, some "tokH", some "refH", ""⟩),
       .response 200 "OK" (some ⟨none, none, none, "fresh"⟩),
       .networkError "unused"⟩).mainHeaders.getLast? =
      some ⟨some "application/json", some "application/json", some ("Bearer " ++ "tokH")⟩ := by
  have h := claim2_refresh_retry
    (⟨some "tokG", some "refG", some "tokG", some "refG"⟩ : ClientState) "GET" none none
    ⟨.response 401 "Unauthorized" (some emptyBody),
     .response 200 "OK" (some ⟨none, some "tokH", some "refH", ""⟩),
     .response 200 "OK" (some ⟨none, none, none, "fresh"⟩),
     .networkError "unused"⟩
    "Unauthorized" (some emptyBody) 200 "OK" ⟨none, some "tokH", some "refH", ""⟩ "tokH"
    200 "OK" (some ⟨none, none, none, "fresh"⟩)
    rfl (by decide) rfl (by decide) rfl (by decide) rfl (by decide)
  exact ⟨h.1, h.2.2.1.trans (by decide)⟩

/-- C3: a first response of 401 with no (truthy) refresh token stored, or
with the refresh attempt failing, clears both stored tokens from memory and
storage, issues no retry of the original request, and returns the
`Authentication required` envelope. -/
theorem claim3_auth_required (s : ClientState) (method : String) (data : Option JsonBody)
    (optHeaders : Option Headers) (w : World) (stx : String) (b : Option JsonBody)
    (hfirst : w.first = .response 401 stx b)
    (hcase : jsTruthy s.refreshToken = false ∨
      (jsTruthy s.refreshToken = true ∧ refreshSucceeds w.refresh1 = false)) :
    (request s method data optHeaders w).envelope = authRequired ∧
    (request s method data optHeaders w).state = ⟨none, none, none, none⟩ ∧
    (request s method data optHeaders w).mainHeaders.length = 1 := by
  obtain ⟨f, r1, rt, r2⟩ := w
  simp only at hfirst hcase
  subst hfirst
  rcases hcase with h | ⟨h, hf⟩
  · simp [request, handleResponse_401_norefresh s stx b r1 h, authRequired, clearAuth]
  · simp [request, handleResponse_401_refresh_fail s stx b r1 h hf, authRequired, clearAuth]

/-- Witness for C3: a 401 with no refresh token stored, and a 401 whose
refresh attempt gets a 403. -/
theorem claim3_witness :
    ((request (⟨some "t3", none, some "t3", none⟩ : ClientState) "GET" none none
      ⟨.response 401 "Unauthorized" (some emptyBody),
       .networkError "n1", .networkError "n2", .networkError "n3"⟩).envelope = authRequired ∧
     (request (⟨some "t3", none, some "t3", none⟩ : ClientState) "GET" none none
      ⟨.response 401 "Unauthorized" (some emptyBody),
       .networkError "n1", .networkError "n2", .networkError "n3"⟩).state =
        ⟨none, none, none, none⟩ ∧
     (request (⟨some "t3", none, some "t3", none⟩ : ClientState) "GET" none none
      ⟨.response 401 "Unauthorized" (some emptyBody),
       .networkError "n1", .networkError "n2", .networkError "n3"⟩).mainHeaders.length = 1) ∧
    (request (⟨some "t3b", some "r3b", some "t3b", some "r3b"⟩ : ClientState) "GET" none none
      ⟨.response 401 "Unauthorized" (some emptyBody),
       .response 403 "Forbidden" (some emptyBody),
       .networkError "n2", .networkError "n3"⟩).envelope = authRequired := by
  constructor
  · exact claim3_auth_required _ "GET" none none _ "Unauthorized" (some emptyBody) rfl
      (Or.inl (by decide))
  · exact (claim3_auth_required _ "GET" none none _ "Unauthorized" (some emptyBody) rfl
      (Or.inr ⟨by decide, by decide⟩)).1

/-- C4 counterexample: a transport failure makes the promise returned by
`upload` reject (via the `onerror` handler) instead of resolving to a
`success = false` envelope, so for `upload` the failure escapes the caller
as an exception. -/
theorem claim4_counterexample :
    (upload (⟨some "t4", some "r4", some "t4", some "r4"⟩ : ClientState)
      .networkError (.networkError "n4")).result = .rejectedNetwork := by
  decide

/-- C4 amended: `request` (and therefore its get/post/put/patch/delete
wrappers) converts a transport failure of the fetch into a returned envelope
with `success = false` and a non-absent error message, and throws nothing;
`upload` instead rejects its promise on transport failure. -/
theorem claim4_request_no_throw (s : ClientState) (method : String) (data : Option JsonBody)
    (optHeaders : Option Headers) (w : World) (msg : String)
    (hfirst : w.first = .networkError msg) :
    (request s method data optHeaders w).envelope.success = false ∧
    (request s method data optHeaders w).envelope.error = some (caughtMsg msg) ∧
    (request s method data optHeaders w).envelope.error ≠ none := by
  obtain ⟨f, r1, rt, r2⟩ := w
  simp only at hfirst
  subst hfirst
  simp [request, errEnvelope]

/-- Witness for C4 at a concrete connection failure. -/
theorem claim4_witness :
    (request (⟨some "t4b", some "r4b", some "t4b", some "r4b"⟩ : ClientState) "POST"
      (some ⟨none, none, none, "payload4"⟩) none
      ⟨.networkError "Failed to fetch", .networkError "n1", .networkError "n2",
       .networkError "n3"⟩).envelope.success = false ∧
    (request (⟨some "t4b", some "r4b", some "t4b", some "r4b"⟩ : ClientState) "POST"
      (some ⟨none, none, none, "payload4"⟩) none
      ⟨.networkError "Failed to fetch", .networkError "n1", .networkError "n2",
       .networkError "n3"⟩).envelope.error = some "Failed to fetch" := by
  have h := claim4_request_no_throw
    (⟨some "t4b", some "r4b", some "t4b", some "r4b"⟩ : ClientState) "POST"
    (some ⟨none, none, none, "payload4"⟩) none
    ⟨.networkError "Failed to fetch", .networkError "n1", .networkError "n2",
     .networkError "n3"⟩ "Failed to fetch" rfl
  exact ⟨h.1, h.2.1.trans (by decide)⟩

theorem setToken_storedToken_eq (s : ClientState) (tok re : Option String) :
    (setToken s tok re).storedToken = tok := by
  simp only [setToken]
  split <;> rfl

theorem setToken_refresh_of_truthy (s : ClientState) (tok re : Option String)
    (h : jsTruthy re = true) :
    (setToken s tok re).refreshToken = re ∧ (setToken s tok re).storedRefreshToken = re := by
  simp [setToken, h]

theorem setToken_refresh_of_falsy (s : ClientState) (tok re : Option String)
    (h : jsTruthy re = false) :
    (setToken s tok re).refreshToken = s.refreshToken ∧
    (setToken s tok re).storedRefreshToken = s.storedRefreshToken := by
  simp [setToken, h]

/-- C9 counterexample: when the caller passes a headers option, the options
spread replaces the default headers wholesale, so the one outgoing fetch
carries neither a Content-Type nor an Authorization header even though an
access token is stored — refuting "overrides applied in addition to (not in
place of) these defaults". -/
theorem claim9_counterexample :
    (request (⟨some "tok9", some "ref9", some "tok9", some "ref9"⟩ : ClientState) "GET" none
      (some ⟨none, none, none⟩)
      ⟨.response 200 "OK" (some emptyBody), .networkError "a", .networkError "b",
       .networkError "c"⟩).mainHeaders.map Headers.contentType = [none] ∧
    (request (⟨some "tok9", some "ref9", some "tok9", some "ref9"⟩ : ClientState) "GET" none
      (some ⟨none, none, none⟩)
      ⟨.response 200 "OK" (some emptyBody), .networkError "a", .networkError "b",
       .networkError "c"⟩).mainHeaders.map Headers.authorization = [none] := by
  decide

/-- C9 amended: when the caller supplies no headers option, the outgoing
request carries the Content-Type application/json header and, with a
(truthy) stored access token, the Authorization Bearer header; a
caller-supplied headers option replaces these defaults wholesale rather
than adding to them; and the body is attached, JSON-serialized, exactly
when data is present and the upper-cased method is POST, PUT or PATCH. -/
theorem claim9_default_headers (s : ClientState) (method : String) (data : Option JsonBody)
    (w : World) (t : String) (hs : s.token = some t) (hne : t ≠ "") :
    (request s method data none w).mainHeaders.head? = some (getHeaders s) ∧
    (getHeaders s).contentType = some "application/json" ∧
    (getHeaders s).authorization = some ("Bearer " ++ t) ∧
    (request s method data none w).sentBody =
      (if data.isSome && mutatingMethods.contains (jsUpper method) then data else none) ∧
    (∀ hOver : Headers,
      (request s method data (some hOver) w).mainHeaders.head? = some hOver) := by
  refine ⟨(request_shape s method data none w).1, rfl,
    getHeaders_authorization s t hs hne, (request_shape s method data none w).2.1, ?_⟩
  intro hOver
  exact (request_shape s method data (some hOver) w).1

/-- Witness for C9 at a concrete lower-case post with a body. -/
theorem claim9_witness :
    (request (⟨some "tok9w", some "ref9w", some "tok9w", some "ref9w"⟩ : ClientState) "post"
      (some ⟨none, none, none, "body9"⟩) none
      ⟨.response 200 "OK" (some emptyBody), .networkError "a", .networkError "b",
       .networkError "c"⟩).mainHeaders.head? =
      some ⟨some "application/json", some "application/json", some "Bearer tok9w"⟩ ∧
    (request (⟨some "tok9w", some "ref9w", some "tok9w", some "ref9w"⟩ : ClientState) "post"
      (some ⟨none, none, none, "body9"⟩) none
      ⟨.response 200 "OK" (some emptyBody), .networkError "a", .networkError "b",
       .networkError "c"⟩).sentBody = some ⟨none, none, none, "body9"⟩ := by
  have h := claim9_default_headers
    (⟨some "tok9w", some "ref9w", some "tok9w", some "ref9w"⟩ : ClientState) "post"
    (some ⟨none, none, none, "body9"⟩)
    ⟨.response 200 "OK" (some emptyBody), .networkError "a", .networkError "b",
     .networkError "c"⟩ "tok9w" rfl (by decide)
  exact ⟨h.1.trans (by decide), h.2.2.2.1.trans (by decide)⟩

/-- C10 counterexample: a 2xx refresh response whose parseable body carries
an access token but no refresh token makes `refreshAuthToken` report
success, yet the stored refresh token is left as it was instead of being
replaced by the response's (absent) refresh token — refuting "both tokens
are replaced". -/
theorem claim10_counterexample :
    (refreshAuthToken (⟨some "oldA", some "oldR", some "oldA", some "oldR"⟩ : ClientState)
      (.response 200 "OK" (some ⟨none, some "newA", none, ""⟩))).1 = true ∧
    (refreshAuthToken (⟨some "oldA", some "oldR", some "oldA", some "oldR"⟩ : ClientState)
      (.response 200 "OK" (some ⟨none, some "newA", none, ""⟩))).2.refreshToken =
      some "oldR" := by
  decide

/-- C10 amended: `refreshAuthToken` is total (never throws); it reports
success exactly on a 2xx response with a parseable body; on failure the
credentials are left unchanged; on success the access token is replaced (in
memory and storage) by the response's access token, while the refresh token
is replaced only when the response carries a truthy refresh token and is
otherwise left unchanged. -/
theorem claim10_refresh_contract (s : ClientState) (r : FetchResult) :
    ((refreshAuthToken s r).1 = true ↔ refreshSucceeds r = true) ∧
    ((refreshAuthToken s r).1 = false → (refreshAuthToken s r).2 = s) ∧
    (∀ st stx b, r = .response st stx (some b) → isOk st = true →
      ((refreshAuthToken s r).2.token = b.access_token ∧
       (refreshAuthToken s r).2.storedToken = b.access_token ∧
       (jsTruthy b.refresh_token = true →
         (refreshAuthToken s r).2.refreshToken = b.refresh_token ∧
         (refreshAuthToken s r).2.storedRefreshToken = b.refresh_token) ∧
       (jsTruthy b.refresh_token = false →
         (refreshAuthToken s r).2.refreshToken = s.refreshToken ∧
         (refreshAuthToken s r).2.storedRefreshToken = s.storedRefreshToken))) := by
  refine ⟨?_, ?_, ?_⟩
  · rw [refreshAuthToken_fst]
  · intro h
    have hf := refreshAuthToken_fst s r
    rw [h] at hf
    rw [refreshAuthToken_of_fail s r hf.symm]
  · intro st stx b hr hok
    subst hr
    rw [refreshAuthToken_of_success s st stx b hok]
    exact ⟨setToken_token_eq s _ _, setToken_storedToken_eq s _ _,
      fun h => setToken_refresh_of_truthy s _ _ h,
      fun h => setToken_refresh_of_falsy s _ _ h⟩

/-- Witness for C10 at a concrete refresh response carrying both tokens. -/
theorem claim10_witness :
    (refreshAuthToken (⟨some "oldA2", some "oldR2", some "oldA2", some "oldR2"⟩ : ClientState)
      (.response 200 "OK" (some ⟨none, some "newA2", some "newR2", ""⟩))).2.token =
      some "newA2" ∧
    (refreshAuthToken (⟨some "oldA2", some "oldR2", some "oldA2", some "oldR2"⟩ : ClientState)
      (.response 200 "OK" (some ⟨none, some "newA2", some "newR2", ""⟩))).2.refreshToken =
      some "newR2" ∧
    (refreshAuthToken (⟨some "oldA2", some "oldR2", some "oldA2", some "oldR2"⟩ : ClientState)
      (.response 200 "OK" (some ⟨none, some "newA2", some "newR2", ""⟩))).1 = true := by
  have h := claim10_refresh_contract
    (⟨some "oldA2", some "oldR2", some "oldA2", some "oldR2"⟩ : ClientState)
    (.response 200 "OK" (some ⟨none, some "newA2", some "newR2", ""⟩))
  obtain ⟨h1, h2, h3⟩ := h
  obtain ⟨ha, hb, hc, hd⟩ := h3 200 "OK" ⟨none, some "newA2", some "newR2", ""⟩ rfl (by decide)
  exact ⟨ha, (hc (by decide)).1, h1.mpr (by decide)⟩
